import Mathlib

/-!
Verification of the Privylock backend (Django REST application).

This file gives a shallow embedding of the data model and the operations of
the Privylock repository (users, devices, documents, folders, versions,
notifications and notification preferences) and proves or refutes the
specification claims about them.  Each definition mirrors one model,
serializer, view or task function of the source tree; machine behaviour of
the database (unique constraints, ON DELETE CASCADE, ON DELETE SET NULL) is
embedded as explicit list manipulation.
-/

namespace Privylock

/-! ## Data model (vault/models.py, users/models.py, notifications/models.py) -/

/-- Subscription tiers of `users/models.py` (`User.subscription_tier` choices). -/
inductive Tier
  | FREE
  | PREMIUM
  | FAMILY
  | LIFETIME
deriving DecidableEq, Repr

/-- Storage limit dictionary from `vault/serializers.py` (`DocumentSerializer.create`)
and `users/models.py` (`User.has_storage_space`); bytes per tier. -/
def storage_limits : Tier → Int
  | .FREE => 1073741824
  | .PREMIUM => 26843545600
  | .FAMILY => 107374182400
  | .LIFETIME => 10737418240

/-- `users/models.py` `User` (the fields the claims touch). `password` stores
the client-precomputed SHA-256 hex hash. -/
structure User where
  id : Nat
  username : String
  password : String
  email_verified : Bool
  subscription_tier : Tier
  storage_used : Int
deriving DecidableEq, Repr

/-- `users/models.py` `Device`: `device_id` is declared `unique=True`
(column-level, global) and `Meta.unique_together = [user, device_id]`. -/
structure Device where
  id : Nat
  userId : Nat
  device_id : String
  is_trusted : Bool
deriving DecidableEq, Repr

/-- `vault/models.py` `Folder`: `parent` is a self reference with
`on_delete=models.CASCADE`. -/
structure Folder where
  id : Nat
  userId : Nat
  parent : Option Nat
deriving DecidableEq, Repr

/-- `vault/models.py` `Document` (fields the claims touch).  `folder` has
`on_delete=models.SET_NULL`; deletion is soft via `is_deleted`/`deleted_at`. -/
structure Document where
  id : Nat
  userId : Nat
  folder : Option Nat
  file_size : Int
  is_deleted : Bool
  deleted_at : Option Nat
deriving DecidableEq, Repr

/-- `vault/models.py` `DocumentVersion`: `(document, version_number)` unique. -/
structure DocumentVersion where
  id : Nat
  documentId : Nat
  version_number : Nat
  file_size : Int
deriving DecidableEq, Repr

/-- `notifications/models.py` `Notification` (fields the claims touch).
`created_at_date` is the calendar day (`created_at__date` in queries). -/
structure Notification where
  id : Nat
  userId : Nat
  documentId : Option Nat
  notification_type : String
  priority : String
  is_read : Bool
  read_at : Option Nat
  email_sent : Bool
  push_sent : Bool
  created_at_date : Nat
deriving DecidableEq, Repr

/-- `notifications/models.py` `NotificationPreference` (fields the claims touch). -/
structure NotificationPreference where
  alert_30_days : Bool
  alert_15_days : Bool
  alert_7_days : Bool
  alert_1_day : Bool
  alert_on_expiry : Bool
  storage_warning_threshold : Int
  storage_critical_threshold : Int
deriving DecidableEq, Repr

/-! ## Document upload (vault/serializers.py `DocumentSerializer.create`,
vault/views.py `DocumentViewSet.create`) -/

/-- State touched by a document upload: the requesting user's row and the
document / version tables. -/
structure VaultState where
  user : User
  documents : List Document
  versions : List DocumentVersion
deriving DecidableEq, Repr

/-- `DocumentSerializer.create` as called from `DocumentViewSet.create`:
if `user.storage_used + file_size > user_limit` a `ValidationError` is raised
(the view/DRF converts it to HTTP 400, nothing written); otherwise one atomic
transaction creates the `Document`, its `DocumentVersion` with
`version_number=1`, and adds `file_size` to `user.storage_used`, and the view
returns HTTP 201.  Result: (HTTP status, post state). -/
def documentUpload (st : VaultState) (newDocId newVerId : Nat) (file_size : Int) :
    Nat × VaultState :=
  let user := st.user
  let user_limit := storage_limits user.subscription_tier
  if user.storage_used + file_size > user_limit then
    (400, st)
  else
    let document : Document :=
      { id := newDocId, userId := user.id, folder := none, file_size := file_size,
        is_deleted := false, deleted_at := none }
    let version : DocumentVersion :=
      { id := newVerId, documentId := newDocId, version_number := 1,
        file_size := file_size }
    (201, { user := { user with storage_used := user.storage_used + file_size },
            documents := st.documents ++ [document],
            versions := st.versions ++ [version] })

/-! ## Document soft delete (vault/views.py `DocumentViewSet`) -/

/-- `DocumentViewSet.get_queryset` restricted to a single pk lookup followed by
`get_object`: only the requesting user's rows with `is_deleted=False` are
visible; a pk outside that queryset raises `Http404`. -/
def get_object (st : VaultState) (pk : Nat) : Option Document :=
  (st.documents.filter (fun d => d.userId == st.user.id && !d.is_deleted)).find?
    (fun d => d.id == pk)

/-- `DocumentViewSet.perform_destroy`: soft delete (set `is_deleted`,
`deleted_at`) then subtract `file_size` from the owner's `storage_used`. -/
def perform_destroy (st : VaultState) (doc : Document) (now : Nat) : VaultState :=
  { user := { st.user with storage_used := st.user.storage_used - doc.file_size },
    documents := st.documents.map (fun d =>
      if d.id == doc.id then { d with is_deleted := true, deleted_at := some now } else d),
    versions := st.versions }

/-- `DocumentViewSet.destroy`: `get_object` then `perform_destroy`, returning
HTTP 200 on success; `Http404` is caught and returned as HTTP 404 with the
state untouched. -/
def destroyDocument (st : VaultState) (pk : Nat) (now : Nat) : Nat × VaultState :=
  match get_object st pk with
  | some doc => (200, perform_destroy st doc now)
  | none => (404, st)

/-! ## Folder deletion (vault/views.py `FolderViewSet.perform_destroy`,
vault/models.py `Folder.parent` / `Document.folder` on-delete rules) -/

/-- State touched by a folder deletion. -/
structure FolderState where
  folders : List Folder
  documents : List Document
deriving DecidableEq, Repr

/-- `id__in` lookup used by the ORM filters. -/
def memNat (ids : List Nat) (x : Nat) : Bool :=
  ids.any (fun j => j == x)

/-- The database cascade closure of `ON DELETE CASCADE` on `Folder.parent`:
starting from the worklist of rows being deleted, every folder whose `parent`
is a deleted row is deleted as well, transitively.  Returns the ids of all
deleted folder rows. -/
def cascade (folders : List Folder) (work : List Nat) : List Nat :=
  match work with
  | [] => []
  | r :: rest =>
    let childs := folders.filter (fun g => g.parent == some r)
    let remaining := folders.filter (fun g => !(g.parent == some r))
    r :: cascade remaining (rest ++ childs.map (fun g => g.id))
termination_by folders.length + work.length
decreasing_by
  have h := folders.length_eq_length_filter_add (fun g => g.parent == some r)
  simp only [List.length_append, List.length_map, List.length_cons]
  omega

/-- `FolderViewSet.perform_destroy` (`instance.delete()`): the folder row and
every cascaded subfolder row are removed; each removed folder row triggers
`SET_NULL` on the `folder` field of documents referencing it.  Documents are
never removed. -/
def destroyFolder (st : FolderState) (fid : Nat) : FolderState :=
  let delSet := cascade st.folders [fid]
  { folders := st.folders.filter (fun g => !(memNat delSet g.id)),
    documents := st.documents.map (fun d =>
      match d.folder with
      | some f => if memNat delSet f then { d with folder := none } else d
      | none => d) }

/-- `g` is a (transitive) subfolder of the folder with id `root`: its parent
chain inside `folders` reaches `root`. -/
inductive SubfolderOf (folders : List Folder) (root : Nat) : Folder → Prop
  | direct (g : Folder) : g ∈ folders → g.parent = some root →
      SubfolderOf folders root g
  | trans (g h : Folder) : SubfolderOf folders root h → g ∈ folders →
      g.parent = some h.id → SubfolderOf folders root g

/-! ## Login (users/views.py `login`, users/models.py `User.check_password`) -/

/-- The 64-hex-char test of `User.check_password` / `User.set_password`:
`len(raw_password) == 64 and all(c in '0123456789abcdef' for c in raw_password)`. -/
def isHex64 (s : String) : Bool :=
  s.length == 64 && s.toList.all (fun c => "0123456789abcdef".toList.contains c)

/-- `users/models.py` `User.check_password`: a 64-hex-char input is compared
directly against the stored hash; anything else is first hashed with SHA-256
(the library hash is passed in as `sha256hex`). -/
def check_password (sha256hex : String → String) (stored raw : String) : Bool :=
  let password_hash := if isHex64 raw then raw else sha256hex raw
  stored == password_hash

/-- Response of the `login` view: HTTP status, the `detail` message, and
whether an access/refresh token pair was issued. -/
structure LoginResponse where
  status : Nat
  detail : String
  tokens : Bool
deriving DecidableEq, Repr

/-- `users/views.py` `login`: missing fields give 400; an unknown username or
a failed `check_password` give a generic 401; a valid pair with
`email_verified=False` gives 403 with a distinct message; otherwise tokens
are issued with 200. -/
def login (sha256hex : String → String) (users : List User)
    (username password : String) : LoginResponse :=
  if username == "" || password == "" then
    { status := 400, detail := "Username and password are required", tokens := false }
  else
    match users.find? (fun u => u.username == username) with
    | none => { status := 401, detail := "Invalid credentials", tokens := false }
    | some user =>
      if !(check_password sha256hex user.password password) then
        { status := 401, detail := "Invalid credentials", tokens := false }
      else if !user.email_verified then
        { status := 403,
          detail := "Please verify your email before logging in. Check your inbox for the verification link.",
          tokens := false }
      else
        { status := 200, detail := "", tokens := true }

/-! ## Notification state transitions (notifications/models.py,
notifications/views.py `NotificationViewSet`) -/

/-- `Notification.mark_as_read`. -/
def mark_as_read (n : Notification) (now : Nat) : Notification :=
  if !n.is_read then { n with is_read := true, read_at := some now } else n

/-- `Notification.mark_email_sent` (called by the email task placeholder). -/
def mark_email_sent (n : Notification) : Notification :=
  if !n.email_sent then { n with email_sent := true } else n

/-- `Notification.mark_push_sent` (called by the push task placeholder). -/
def mark_push_sent (n : Notification) : Notification :=
  if !n.push_sent then { n with push_sent := true } else n

/-- `NotificationViewSet.partial_update`: only the `is_read` field of the
payload is honoured (`none` = field absent).  `is_read=true` on an unread row
calls `mark_as_read`; `is_read=false` on a read row resets `is_read` and
clears `read_at`. -/
def patch_notification (n : Notification) (payload_is_read : Option Bool)
    (now : Nat) : Notification :=
  match payload_is_read with
  | none => n
  | some b =>
    if b && !n.is_read then mark_as_read n now
    else if !b && n.is_read then { n with is_read := false, read_at := none }
    else n

/-- The API operations that write an existing `Notification` row:
`partial_update`, the bulk `mark_read`/`mark_all_read` row effect
(`selected` says whether this row is targeted and unread), and the email/push
send tasks. -/
inductive NotifOp
  | patch (payload_is_read : Option Bool)
  | bulkRead (selected : Bool)
  | emailSend
  | pushSend
deriving DecidableEq, Repr

/-- Apply one notification-writing API operation to a row. -/
def applyNotifOp (op : NotifOp) (n : Notification) (now : Nat) : Notification :=
  match op with
  | .patch p => patch_notification n p now
  | .bulkRead selected =>
    if selected && !n.is_read then { n with is_read := true, read_at := some now } else n
  | .emailSend => mark_email_sent n
  | .pushSend => mark_push_sent n

/-! ## Bulk mark-read (notifications/serializers.py
`NotificationMarkReadSerializer`, notifications/views.py `mark_read`) -/

/-- State for the notification endpoints: the caller and the notification
table. -/
structure NotifState where
  userId : Nat
  notifications : List Notification
deriving DecidableEq, Repr

/-- `NotificationMarkReadSerializer.validate_notification_ids`: the list may
not be empty (`allow_empty=False`) and every id must name a notification of
the calling user, otherwise a 400 `ValidationError`. -/
def mark_read_validate (st : NotifState) (ids : List Nat) : Bool :=
  !ids.isEmpty &&
    ids.all (fun i => st.notifications.any (fun n => n.id == i && n.userId == st.userId))

/-- Row predicate of the `mark_as_read` bulk update:
`filter(id__in=ids, user=user, is_read=False)`. -/
def markReadHits (st : NotifState) (ids : List Nat) (n : Notification) : Bool :=
  memNat ids n.id && n.userId == st.userId && !n.is_read

/-- The row effect of the bulk update
`update(is_read=True, read_at=timezone.now())` on the matched rows. -/
def markReadApply (st : NotifState) (ids : List Nat) (now : Nat) : List Notification :=
  st.notifications.map (fun n =>
    if markReadHits st ids n
    then { n with is_read := true, read_at := some now } else n)

/-- `NotificationViewSet.mark_read`: validate, then
`filter(id__in=ids, user=user, is_read=False).update(is_read=True, read_at=now)`;
the response `count` is the number of rows the update matched. -/
def mark_read (st : NotifState) (ids : List Nat) (now : Nat) :
    Except Nat (NotifState × Nat) :=
  if mark_read_validate st ids then
    let count := (st.notifications.filter (fun n => markReadHits st ids n)).length
    .ok ({ st with notifications := markReadApply st ids now }, count)
  else
    .error 400

/-! ## Preferences update (notifications/serializers.py
`NotificationPreferenceSerializer`, notifications/views.py
`NotificationPreferenceViewSet.update`) -/

/-- Payload of a preferences update restricted to the two thresholds; `none`
means the field is absent from the request (the view always passes
`partial=True`). -/
structure PrefThresholdUpdate where
  storage_warning_threshold : Option Int
  storage_critical_threshold : Option Int
deriving DecidableEq, Repr

/-- `validate_storage_warning_threshold`: `50 <= value <= 100`. -/
def validate_storage_warning_threshold (v : Int) : Bool :=
  50 ≤ v && v ≤ 100

/-- `validate_storage_critical_threshold`: `50 <= value <= 100`. -/
def validate_storage_critical_threshold (v : Int) : Bool :=
  50 ≤ v && v ≤ 100

/-- `NotificationPreferenceSerializer.validate`: reads the thresholds from the
submitted (partial) data with the literal fallbacks
`data.get('storage_warning_threshold', 80)` and
`data.get('storage_critical_threshold', 95)` - NOT from the stored instance -
and rejects when `critical <= warning`. -/
def pref_cross_validate (d : PrefThresholdUpdate) : Bool :=
  let warning := d.storage_warning_threshold.getD 80
  let critical := d.storage_critical_threshold.getD 95
  !(critical ≤ warning)

/-- `NotificationPreferenceViewSet.update`: run the field validators on the
submitted fields and the cross-field `validate`; on failure return 400 and
leave the row unchanged, on success persist exactly the submitted fields. -/
def preferences_update (prefs : NotificationPreference) (d : PrefThresholdUpdate) :
    Except Nat NotificationPreference :=
  let fieldsOk :=
    (match d.storage_warning_threshold with
     | some v => validate_storage_warning_threshold v
     | none => true) &&
    (match d.storage_critical_threshold with
     | some v => validate_storage_critical_threshold v
     | none => true)
  if fieldsOk && pref_cross_validate d then
    .ok { prefs with
          storage_warning_threshold :=
            d.storage_warning_threshold.getD prefs.storage_warning_threshold,
          storage_critical_threshold :=
            d.storage_critical_threshold.getD prefs.storage_critical_threshold }
  else
    .error 400

/-! ## Expiry scan (notifications/tasks.py `check_document_expiry`,
notifications/utils.py `NotificationCreator.create_expiry_alert`) -/

/-- `notifications/utils.py` `NotificationCreator.create_expiry_alert` as
defined: builds the row with `notification_type='EXPIRY_ALERT'` and a
priority derived from the urgency.  `nid`/`today` stand for the fresh primary
key and `created_at` day the database assigns. -/
def create_expiry_alert (userId docId : Nat) (days_until_expiry : Int)
    (nid today : Nat) : Notification :=
  let notification_type := "EXPIRY_ALERT"
  let priority :=
    if days_until_expiry ≤ 1 then "high"
    else if days_until_expiry ≤ 7 then "medium"
    else "low"
  { id := nid, userId := userId, documentId := some docId,
    notification_type := notification_type, priority := priority,
    is_read := false, read_at := none, email_sent := false, push_sent := false,
    created_at_date := today }

/-- The positional/keyword parameter names accepted by
`NotificationCreator.create_expiry_alert(user, document, days_until_expiry)`. -/
def create_expiry_alert_params : List String :=
  ["user", "document", "days_until_expiry"]

/-- The keyword arguments `check_document_expiry` passes at its call site
(`tasks.py` lines 140-145). -/
def check_expiry_call_kwargs : List String :=
  ["document", "user", "preferences", "days_until_expiry"]

/-- Python keyword binding: the call succeeds only if every keyword argument
names a parameter of the callee; otherwise the call raises `TypeError`
before the callee body runs. -/
def check_expiry_call_binds : Bool :=
  check_expiry_call_kwargs.all (fun k => create_expiry_alert_params.contains k)

/-- The same-day duplicate check of `check_document_expiry` for the day
offsets 0/1/7/15/30: an existing notification for this user and document with
`notification_type=Notification.DOCUMENT_EXPIRY` created today. -/
def existsSameDayExpiryNotif (notifs : List Notification) (userId docId today : Nat) :
    Bool :=
  notifs.any (fun n =>
    n.userId == userId && n.documentId == some docId &&
    n.notification_type == "DOCUMENT_EXPIRY" && n.created_at_date == today)

/-- The duplicate check of `check_document_expiry` for already-expired
documents: an unread `DOCUMENT_EXPIRED` notification for this document. -/
def existsUnreadExpiredNotif (notifs : List Notification) (userId docId : Nat) :
    Bool :=
  notifs.any (fun n =>
    n.userId == userId && n.documentId == some docId &&
    n.notification_type == "DOCUMENT_EXPIRED" && !n.is_read)

/-- The `should_notify` elif-chain of `check_document_expiry` for one
document whose expiry date decrypted successfully `days` days from today. -/
def expiry_should_notify (prefs : NotificationPreference) (userId docId : Nat)
    (days : Int) (today : Nat) (notifs : List Notification) : Bool :=
  if days < 0 then
    !(existsUnreadExpiredNotif notifs userId docId)
  else if days == 0 && prefs.alert_on_expiry then
    !(existsSameDayExpiryNotif notifs userId docId today)
  else if days == 1 && prefs.alert_1_day then
    !(existsSameDayExpiryNotif notifs userId docId today)
  else if days == 7 && prefs.alert_7_days then
    !(existsSameDayExpiryNotif notifs userId docId today)
  else if days == 15 && prefs.alert_15_days then
    !(existsSameDayExpiryNotif notifs userId docId today)
  else if days == 30 && prefs.alert_30_days then
    !(existsSameDayExpiryNotif notifs userId docId today)
  else
    false

/-- One iteration of the `check_document_expiry` loop for a document whose
expiry date decrypted to `days` days from today (the decryption collaborator
`vault.encryption.decrypt_text` is outside this repository; a successful
decryption is assumed here).  If `should_notify`, the task calls
`create_expiry_alert` with the keyword argument `preferences=prefs`; when the
call does not bind (`TypeError`) the per-document `except` swallows the
exception and the loop continues with nothing created.  Returns the
notification table and the number of notifications this document added. -/
def check_document_expiry_step (prefs : NotificationPreference) (userId docId : Nat)
    (days : Int) (today : Nat) (notifs : List Notification) (nid : Nat) :
    List Notification × Nat :=
  if expiry_should_notify prefs userId docId days today notifs then
    if check_expiry_call_binds then
      (notifs ++ [create_expiry_alert userId docId days nid today], 1)
    else
      (notifs, 0)
  else
    (notifs, 0)

/-! ## Device registration (users/models.py `Device`,
users/serializers.py `UserRegistrationSerializer.create`,
users/views.py `register`) -/

/-- The database insert of a `Device` row under the schema of
`users/models.py`: the column-level `unique=True` on `device_id` makes any
insert with an already-present `device_id` raise `IntegrityError`, for any
owner. -/
def insertDevice (devices : List Device) (d : Device) : Except String (List Device) :=
  if devices.any (fun e => e.device_id == d.device_id) then
    .error "IntegrityError"
  else
    .ok (devices ++ [d])

/-- The device-creation step of `UserRegistrationSerializer.create`
(`Device.objects.create`) as driven by the `register` view: an
`IntegrityError` escapes the serializer and is caught by the view's generic
handler, which returns HTTP 500 with nothing persisted; success ends in
HTTP 201. -/
def register_device (devices : List Device) (d : Device) : Nat × List Device :=
  match insertDevice devices d with
  | .ok devices2 => (201, devices2)
  | .error _ => (500, devices)

/-! ## Concrete fixtures used by witnesses and counterexamples -/

/-- A verified demo user storing the (dummy) 64-hex-char password hash. -/
def demoUser : User :=
  { id := 1,
    username := "a3f1",
    password := "aaaaaaaaaaaaaaaaaaaaaaaaaaaaaaaaaaaaaaaaaaaaaaaaaaaaaaaaaaaaaaaa",
    email_verified := true, subscription_tier := .FREE, storage_used := 0 }

/-- Preferences with every expiry alert offset enabled (the model defaults). -/
def prefsAllOn : NotificationPreference :=
  { alert_30_days := true, alert_15_days := true, alert_7_days := true,
    alert_1_day := true, alert_on_expiry := true,
    storage_warning_threshold := 80, storage_critical_threshold := 95 }

/-- A notification that has already been read. -/
def readNotif : Notification :=
  { id := 10, userId := 1, documentId := none, notification_type := "SYSTEM",
    priority := "LOW", is_read := true, read_at := some 3, email_sent := false,
    push_sent := false, created_at_date := 3 }

/-- A family of unread notifications owned by user 1. -/
def unreadNotif (i : Nat) : Notification :=
  ⟨i, 1, none, "SYSTEM", "LOW", false, none, false, false, 3⟩

/-- The preferences persisted after the updates of the C3 counter-scenario:
`storage_warning_threshold=90`, `storage_critical_threshold=85`. -/
def prefsViolating : NotificationPreference :=
  { prefsAllOn with storage_warning_threshold := 90, storage_critical_threshold := 85 }

/-!
## Theorems
-/

/-- Claim C2: for a document with `days_until_expiry = 7`, owner preference
`alert_7_days = True` and no same-day notification, one run of
`check_document_expiry` is claimed to create exactly one new
`DOCUMENT_EXPIRY` notification.  The code disagrees: the `should_notify`
chain does fire, but the call to `NotificationCreator.create_expiry_alert`
passes the keyword argument `preferences`, which the callee does not accept,
so the call raises `TypeError`, the per-document handler swallows it, and no
notification is created at all.  Independently, the row the callee would
build has `notification_type='EXPIRY_ALERT'`, which the `DOCUMENT_EXPIRY`
same-day duplicate query would never match. -/
theorem check_document_expiry_creates_no_notification :
    expiry_should_notify prefsAllOn 1 1 7 100 [] = true ∧
    check_expiry_call_binds = false ∧
    check_document_expiry_step prefsAllOn 1 1 7 100 [] 1 = ([], 0) ∧
    (create_expiry_alert 1 1 7 1 100).notification_type ≠ "DOCUMENT_EXPIRY" := by
  refine ⟨by decide, by decide, by decide, by decide⟩

/-- Claim C3: the persisted invariant
`storage_critical_threshold > storage_warning_threshold` is claimed to
survive every preferences update, partial updates included.  The code
disagrees: `NotificationPreferenceSerializer.validate` compares the
submitted values against the literal fallbacks 80/95 instead of the stored
row, so after legitimately persisting warning=90/critical=95, a partial
update carrying only `storage_critical_threshold=85` passes validation and
persists warning=90 > critical=85. -/
theorem preferences_update_persists_violation :
    preferences_update prefsAllOn
        { storage_warning_threshold := some 90, storage_critical_threshold := some 95 } =
      .ok { prefsAllOn with storage_warning_threshold := 90, storage_critical_threshold := 95 } ∧
    preferences_update
        { prefsAllOn with storage_warning_threshold := 90, storage_critical_threshold := 95 }
        { storage_warning_threshold := none, storage_critical_threshold := some 85 } =
      .ok prefsViolating ∧
    ¬(prefsViolating.storage_critical_threshold > prefsViolating.storage_warning_threshold) := by
  refine ⟨rfl, rfl, by decide⟩

/-- Claim C7 fails as stated: `NotificationViewSet.partial_update` accepts
`is_read=false` and resets a read notification to unread, clearing
`read_at` - the read transition is not one-way. -/
theorem notification_read_state_not_one_way :
    readNotif.is_read = true ∧
    (patch_notification readNotif (some false) 5).is_read = false ∧
    (patch_notification readNotif (some false) 5).read_at = none := by
  decide

/-- Claim C7 (amended): across every notification-writing API operation,
`email_sent` and `push_sent` only ever transition from false to true, and
`is_read` only ever transitions from false to true except under a
`partial_update` whose payload carries `is_read=false`, which resets it. -/
theorem notification_sent_flags_monotone (op : NotifOp) (n : Notification) (now : Nat) :
    (n.email_sent = true → (applyNotifOp op n now).email_sent = true) ∧
    (n.push_sent = true → (applyNotifOp op n now).push_sent = true) ∧
    (n.is_read = true → op ≠ .patch (some false) →
      (applyNotifOp op n now).is_read = true) := by
  rcases op with p | sel | _ | _
  · rcases p with _ | b
    · simp [applyNotifOp, patch_notification]
    · rcases b <;>
        rcases hr : n.is_read <;>
          simp [applyNotifOp, patch_notification, mark_as_read, hr]
  · rcases hr : n.is_read <;> rcases sel <;>
      simp [applyNotifOp, hr]
  · rcases he : n.email_sent <;> simp [applyNotifOp, mark_email_sent, he]
  · rcases hp : n.push_sent <;> simp [applyNotifOp, mark_push_sent, hp]

/-- Witness for `notification_sent_flags_monotone` at a concrete operation
and row. -/
theorem notification_sent_flags_monotone_witness :
    ({ readNotif with email_sent := true } : Notification).email_sent = true ∧
    (applyNotifOp .emailSend { readNotif with email_sent := true } 5).email_sent = true :=
  ⟨rfl, (notification_sent_flags_monotone .emailSend { readNotif with email_sent := true } 5).1 rfl⟩

/-- Claim C1: an upload returns 201 exactly when the projected usage fits the
tier limit; on 201 the user's `storage_used` grows by exactly `file_size`,
the document row exists and a `DocumentVersion` with `version_number=1`
exists for it; on quota rejection (400) the state is completely unchanged,
so no `Document` or `DocumentVersion` row is created and the storage counter
is untouched.  `hfresh` says the id chosen for the new document is fresh. -/
theorem document_upload_storage_and_version (st : VaultState) (newDocId newVerId : Nat)
    (fs : Int) (hfresh : ∀ v ∈ st.versions, v.documentId ≠ newDocId) :
    ((documentUpload st newDocId newVerId fs).1 = 201 ∨
      (documentUpload st newDocId newVerId fs).1 = 400) ∧
    ((documentUpload st newDocId newVerId fs).1 = 201 ↔
      st.user.storage_used + fs ≤ storage_limits st.user.subscription_tier) ∧
    ((documentUpload st newDocId newVerId fs).1 = 201 →
      (documentUpload st newDocId newVerId fs).2.user.storage_used =
        st.user.storage_used + fs ∧
      (∃ d ∈ (documentUpload st newDocId newVerId fs).2.documents, d.id = newDocId)) ∧
    ((∃ v ∈ (documentUpload st newDocId newVerId fs).2.versions,
        v.documentId = newDocId ∧ v.version_number = 1) ↔
      (documentUpload st newDocId newVerId fs).1 = 201) ∧
    ((documentUpload st newDocId newVerId fs).1 = 400 →
      (documentUpload st newDocId newVerId fs).2 = st) := by
  by_cases h : st.user.storage_used + fs > storage_limits st.user.subscription_tier
  · have hre : documentUpload st newDocId newVerId fs = (400, st) := by
      simp [documentUpload, if_pos h]
    rw [hre]
    refine ⟨Or.inr rfl,
      ⟨fun hc => by simp at hc, fun hle => absurd hle (by omega)⟩,
      fun hc => by simp at hc,
      ⟨?_, fun hc => by simp at hc⟩,
      fun _ => rfl⟩
    rintro ⟨v, hv, hvd, _⟩
    exact absurd hvd (hfresh v hv)
  · have hre : documentUpload st newDocId newVerId fs =
        (201, { user := { st.user with storage_used := st.user.storage_used + fs },
                documents := st.documents ++
                  [{ id := newDocId, userId := st.user.id, folder := none,
                     file_size := fs, is_deleted := false, deleted_at := none }],
                versions := st.versions ++
                  [{ id := newVerId, documentId := newDocId, version_number := 1,
                     file_size := fs }] }) := by
      simp [documentUpload, if_neg h]
    rw [hre]
    refine ⟨Or.inl rfl,
      ⟨fun _ => by omega, fun _ => rfl⟩,
      fun _ => ⟨rfl, ⟨_, List.mem_append_right _ (List.mem_singleton_self _), rfl⟩⟩,
      ⟨fun _ => rfl,
       fun _ => ⟨_, List.mem_append_right _ (List.mem_singleton_self _), rfl, rfl⟩⟩,
      fun hc => by simp at hc⟩

/-- Witness for `document_upload_storage_and_version`: a 1000-byte upload by
a fresh FREE-tier user succeeds and adds 1000 bytes to `storage_used`. -/
theorem document_upload_witness :
    (∀ v ∈ (⟨demoUser, [], []⟩ : VaultState).versions, v.documentId ≠ 7) ∧
    (documentUpload ⟨demoUser, [], []⟩ 7 8 1000).2.user.storage_used =
      demoUser.storage_used + 1000 :=
  ⟨by simp,
   ((document_upload_storage_and_version ⟨demoUser, [], []⟩ 7 8 1000 (by simp)).2.2.1
      (by decide)).1⟩

/-- Membership characterisation of the `id__in` lookup. -/
theorem memNat_iff (ids : List Nat) (x : Nat) : memNat ids x = true ↔ x ∈ ids := by
  simp [memNat, List.any_eq_true, beq_iff_eq]

/-- Every id on the cascade worklist is among the deleted rows. -/
theorem cascade_mem_work (folders : List Folder) (work : List Nat) :
    ∀ w ∈ work, w ∈ cascade folders work := by
  induction folders, work using cascade.induct with
  | case1 folders => simp
  | case2 folders r rest childs remaining ih =>
    intro w hw
    rw [cascade]
    rcases List.mem_cons.mp hw with h | h
    · exact h ▸ List.mem_cons_self _ _
    · exact List.mem_cons_of_mem _ (ih w (List.mem_append_left _ h))

/-- The cascade set is closed under the child relation: a folder whose parent
row is deleted is deleted as well. -/
theorem cascade_closed (folders : List Folder) (work : List Nat) :
    ∀ g ∈ folders, ∀ x, g.parent = some x → x ∈ cascade folders work →
      g.id ∈ cascade folders work := by
  induction folders, work using cascade.induct with
  | case1 folders =>
    intro g hg x hpar hx
    simp [cascade] at hx
  | case2 folders r rest childs remaining ih =>
    intro g hg x hpar hx
    by_cases hxr : x = r
    · subst hxr
      have hgc : g ∈ folders.filter (fun g : Folder => g.parent == some x) :=
        List.mem_filter.mpr ⟨hg, by simp [hpar]⟩
      have hmm : g.id ∈ rest ++ (folders.filter
          (fun g : Folder => g.parent == some x)).map (fun g => g.id) :=
        List.mem_append_right _ (List.mem_map_of_mem _ hgc)
      rw [cascade]
      exact List.mem_cons_of_mem _ (cascade_mem_work _ _ _ hmm)
    · rw [cascade] at hx ⊢
      rcases List.mem_cons.mp hx with h | h
      · exact absurd h hxr
      · have hgrem : g ∈ folders.filter (fun g : Folder => !(g.parent == some r)) :=
          List.mem_filter.mpr ⟨hg, by simp [hpar, hxr]⟩
        exact List.mem_cons_of_mem _ (ih g hgrem x hpar h)

/-- Every transitive subfolder of the deleted root is in the cascade set. -/
theorem subfolder_id_in_cascade (folders : List Folder) (root : Nat) (g : Folder)
    (hsub : SubfolderOf folders root g) : g.id ∈ cascade folders [root] := by
  induction hsub with
  | direct g hg hpar =>
    exact cascade_closed folders [root] g hg root hpar
      (cascade_mem_work folders [root] root (by simp))
  | trans g h hsubh hg hpar ih =>
    exact cascade_closed folders [root] g hg h.id hpar ih

/-- Claim C5: deleting a folder preserves every document row (same ids, in
order), resets `folder` to `None` for the documents that were in the deleted
folder, removes every transitive subfolder, and removes the folder itself. -/
theorem folder_delete_spec (st : FolderState) (fid : Nat) :
    ((destroyFolder st fid).documents.map (fun d => d.id) =
      st.documents.map (fun d => d.id)) ∧
    (∀ d ∈ st.documents, d.folder = some fid →
      ∃ d2 ∈ (destroyFolder st fid).documents, d2.id = d.id ∧ d2.folder = none) ∧
    (∀ g : Folder, SubfolderOf st.folders fid g →
      ∀ g2 ∈ (destroyFolder st fid).folders, g2.id ≠ g.id) ∧
    (∀ g2 ∈ (destroyFolder st fid).folders, g2.id ≠ fid) := by
  have hfid : memNat (cascade st.folders [fid]) fid = true :=
    (memNat_iff _ _).mpr (cascade_mem_work st.folders [fid] fid (by simp))
  refine ⟨?_, ?_, ?_, ?_⟩
  · rw [destroyFolder]
    rw [List.map_map]
    apply List.map_congr_left
    intro d _
    rcases hdf : d.folder with _ | f
    · simp [hdf]
    · by_cases hmem : memNat (cascade st.folders [fid]) f = true
      · simp [hdf, hmem]
      · simp [hdf, hmem]
  · intro d hd hdf
    refine ⟨{ d with folder := none }, ?_, rfl, rfl⟩
    rw [destroyFolder]
    have : ({ d with folder := none } : Document) =
        (fun d => match d.folder with
          | some f => if memNat (cascade st.folders [fid]) f
              then { d with folder := none } else d
          | none => d) d := by
      simp [hdf, hfid]
    rw [this]
    exact List.mem_map_of_mem _ hd
  · intro g hsub g2 hg2 heq
    have hgid : g.id ∈ cascade st.folders [fid] :=
      subfolder_id_in_cascade st.folders fid g hsub
    rw [destroyFolder] at hg2
    have := (List.mem_filter.mp hg2).2
    rw [heq] at this
    rw [(memNat_iff _ _).mpr hgid] at this
    exact Bool.noConfusion this
  · intro g2 hg2 heq
    rw [destroyFolder] at hg2
    have := (List.mem_filter.mp hg2).2
    rw [heq, hfid] at this
    exact Bool.noConfusion this

/-- Witness for `folder_delete_spec`: deleting the root folder of a
three-folder chain reparents the document inside it to no folder. -/
theorem folder_delete_spec_witness :
    ∃ d2 ∈ (destroyFolder
        ⟨[⟨1, 1, none⟩, ⟨2, 1, some 1⟩, ⟨3, 1, some 2⟩],
         [⟨5, 1, some 1, 1000, false, none⟩]⟩ 1).documents,
      d2.id = 5 ∧ d2.folder = none :=
  (folder_delete_spec
      ⟨[⟨1, 1, none⟩, ⟨2, 1, some 1⟩, ⟨3, 1, some 2⟩],
       [⟨5, 1, some 1, 1000, false, none⟩]⟩ 1).2.1
    ⟨5, 1, some 1, 1000, false, none⟩ (by simp) rfl

/-- Claim C4: after a successful soft delete via the DELETE endpoint the
document row persists with `is_deleted=True` and a set `deleted_at`, and the
owner's `storage_used` drops by exactly the document's `file_size`.
`hnodup` is the primary-key constraint on document ids. -/
theorem soft_delete_spec (st : VaultState) (doc : Document) (now : Nat)
    (hmem : doc ∈ st.documents)
    (hown : doc.userId = st.user.id)
    (hnotdel : doc.is_deleted = false)
    (hnodup : (st.documents.map (fun d => d.id)).Nodup) :
    (destroyDocument st doc.id now).1 = 200 ∧
    (destroyDocument st doc.id now).2.user.storage_used =
      st.user.storage_used - doc.file_size ∧
    ∃ d2 ∈ (destroyDocument st doc.id now).2.documents,
      d2.id = doc.id ∧ d2.is_deleted = true ∧ d2.deleted_at = some now := by
  have hmemf : doc ∈ st.documents.filter (fun d => d.userId == st.user.id && !d.is_deleted) :=
    List.mem_filter.mpr ⟨hmem, by simp [hown, hnotdel]⟩
  have hsome : ((st.documents.filter
      (fun d => d.userId == st.user.id && !d.is_deleted)).find?
      (fun d => d.id == doc.id)).isSome := by
    apply List.find?_isSome.mpr
    exact ⟨doc, hmemf, by simp⟩
  obtain ⟨d, hd⟩ := Option.isSome_iff_exists.mp hsome
  have hdp : d.id = doc.id := by
    have := List.find?_some hd
    simpa using this
  have hdm : d ∈ st.documents :=
    List.mem_filter.mp (List.mem_of_find?_eq_some hd) |>.1
  have hde : d = doc :=
    List.inj_on_of_nodup_map hnodup hdm hmem hdp
  have hget : get_object st doc.id = some doc := by
    rw [get_object, hd, hde]
  have hre : destroyDocument st doc.id now = (200, perform_destroy st doc now) := by
    rw [destroyDocument, hget]
  rw [hre]
  refine ⟨rfl, rfl, ?_⟩
  refine ⟨{ doc with is_deleted := true, deleted_at := some now }, ?_, rfl, rfl, rfl⟩
  have : ({ doc with is_deleted := true, deleted_at := some now } : Document) =
      (fun d => if d.id == doc.id
        then { d with is_deleted := true, deleted_at := some now } else d) doc := by
    simp
  rw [this]
  exact List.mem_map_of_mem _ hmem

/-- Witness for `soft_delete_spec`: deleting a 1000-byte live document of a
user with 1000 bytes used returns 200 and frees exactly 1000 bytes. -/
theorem soft_delete_spec_witness :
    ((⟨5, 1, none, 1000, false, none⟩ : Document) ∈
      [(⟨5, 1, none, 1000, false, none⟩ : Document)]) ∧
    (destroyDocument ⟨{ demoUser with storage_used := 1000 },
        [⟨5, 1, none, 1000, false, none⟩], []⟩ 5 42).1 = 200 :=
  ⟨List.mem_singleton_self _,
   (soft_delete_spec ⟨{ demoUser with storage_used := 1000 },
      [⟨5, 1, none, 1000, false, none⟩], []⟩ ⟨5, 1, none, 1000, false, none⟩ 42
      (List.mem_singleton_self _) rfl rfl (by simp)).1⟩

/-- Claim C9: a DELETE for a document that is already soft-deleted hits the
`is_deleted=False` queryset filter, so `get_object` raises `Http404`, the
endpoint answers 404 and the state - storage counter, `deleted_at`, every
field - is exactly unchanged. -/
theorem second_delete_returns_404 (st : VaultState) (pk : Nat) (now : Nat)
    (hdel : ∀ d ∈ st.documents, d.id = pk → d.is_deleted = true) :
    destroyDocument st pk now = (404, st) := by
  have hget : get_object st pk = none := by
    rw [get_object]
    apply List.find?_eq_none.mpr
    intro d hdmem
    have hdm := List.mem_filter.mp hdmem
    have hnot : d.is_deleted = false := by
      have := hdm.2
      simp only [Bool.and_eq_true, Bool.not_eq_true'] at this
      exact this.2
    intro hbeq
    have hid : d.id = pk := by simpa using hbeq
    have := hdel d hdm.1 hid
    rw [this] at hnot
    exact Bool.noConfusion hnot
  rw [destroyDocument, hget]

/-- Witness for `second_delete_returns_404`: re-deleting an already
soft-deleted document returns 404 with the state untouched. -/
theorem second_delete_returns_404_witness :
    destroyDocument ⟨demoUser, [⟨5, 1, none, 1000, true, some 9⟩], []⟩ 5 42 =
      (404, ⟨demoUser, [⟨5, 1, none, 1000, true, some 9⟩], []⟩) :=
  second_delete_returns_404 ⟨demoUser, [⟨5, 1, none, 1000, true, some 9⟩], []⟩ 5 42
    (by intro d hd _; simp at hd; rw [hd])

/-- Claim C6: `check_password` on a 64-hex-char submission compares by direct
equality against the stored hash, never invoking the hash function; an
unknown username and a wrong password both return the same generic
401 response; correct credentials with an unverified email return 403 with a
distinct message; correct credentials with a verified email return 200 and
issue the token pair. -/
theorem login_spec (sha256hex : String → String) (users : List User)
    (username password : String) (hu : username ≠ "") (hp : password ≠ "") :
    (∀ stored, isHex64 password = true →
      check_password sha256hex stored password = (stored == password)) ∧
    (users.find? (fun u => u.username == username) = none →
      login sha256hex users username password =
        ⟨401, "Invalid credentials", false⟩) ∧
    (∀ user, users.find? (fun u => u.username == username) = some user →
      (check_password sha256hex user.password password = false →
        login sha256hex users username password =
          ⟨401, "Invalid credentials", false⟩) ∧
      (check_password sha256hex user.password password = true →
        user.email_verified = false →
        (login sha256hex users username password).status = 403 ∧
        (login sha256hex users username password).detail ≠ "Invalid credentials" ∧
        (login sha256hex users username password).tokens = false) ∧
      (check_password sha256hex user.password password = true →
        user.email_verified = true →
        (login sha256hex users username password).status = 200 ∧
        (login sha256hex users username password).tokens = true)) := by
  have hcond : (username == "" || password == "") = false := by
    simp [hu, hp]
  refine ⟨?_, ?_, ?_⟩
  · intro stored hhex
    rw [check_password, if_pos hhex]
  · intro hfind
    rw [login, if_neg (by rw [hcond]; exact Bool.noConfusion), hfind]
  · intro user hfind
    refine ⟨?_, ?_, ?_⟩
    · intro hcp
      rw [login, if_neg (by rw [hcond]; exact Bool.noConfusion), hfind]
      simp [hcp]
    · intro hcp hver
      rw [login, if_neg (by rw [hcond]; exact Bool.noConfusion), hfind]
      simp [hcp, hver]
    · intro hcp hver
      rw [login, if_neg (by rw [hcond]; exact Bool.noConfusion), hfind]
      simp [hcp, hver]

/-- Witness for login_spec -/
theorem login_spec_witness :
    (login (fun s => s) [demoUser] "a3f1" demoUser.password).status = 200 ∧
    (login (fun s => s) [demoUser] "a3f1" demoUser.password).tokens = true :=
  ((login_spec (fun s => s) [demoUser] "a3f1" demoUser.password (by decide)
      (by decide)).2.2 demoUser rfl).2.2 (by decide) rfl

/-- Counting a disjunction of pointwise-exclusive predicates splits into a sum. -/
theorem countP_or_disjoint {α : Type} (p q : α → Bool) (l : List α)
    (hdisj : ∀ a ∈ l, ¬(p a = true ∧ q a = true)) :
    l.countP (fun a => p a || q a) = l.countP p + l.countP q := by
  induction l with
  | nil => simp
  | cons a t ih =>
    have ht : ∀ x ∈ t, ¬(p x = true ∧ q x = true) :=
      fun x hx => hdisj x (List.mem_cons_of_mem _ hx)
    have ha := hdisj a (List.mem_cons_self _ _)
    rw [List.countP_cons, List.countP_cons, List.countP_cons, ih ht]
    rcases hpa : p a <;> rcases hqa : q a
    · simp [hpa, hqa]
    · simp [hpa, hqa]
      omega
    · simp [hpa, hqa]
      omega
    · exact absurd ⟨hpa, hqa⟩ ha

/-- Under the primary-key constraint, exactly one row matches a present id. -/
theorem countP_id_unique (l : List Notification) (q : Notification → Bool)
    (hnodup : (l.map (fun n => n.id)).Nodup) (i : Nat) (n0 : Notification)
    (hmem : n0 ∈ l) (hid : n0.id = i) (hq : q n0 = true) :
    l.countP (fun n => (n.id == i) && q n) = 1 := by
  induction l with
  | nil => cases hmem
  | cons a t ih =>
    rw [List.map_cons, List.nodup_cons] at hnodup
    obtain ⟨ha, ht⟩ := hnodup
    rcases List.mem_cons.mp hmem with heq | hm
    · rw [List.countP_cons]
      have hpa : ((a.id == i) && q a) = true := by
        rw [← heq, hid, hq]
        simp
      rw [hpa]
      have hzero : t.countP (fun n => (n.id == i) && q n) = 0 := by
        apply List.countP_eq_zero.mpr
        intro n hn
        simp only [Bool.and_eq_true, beq_iff_eq, not_and]
        intro h1 _
        apply ha
        rw [← heq, hid, ← h1]
        exact List.mem_map_of_mem (fun n => n.id) hn
      simp [hzero]
    · rw [List.countP_cons]
      have hane : a.id ≠ i := by
        intro he
        exact ha (he ▸ hid ▸ List.mem_map_of_mem (fun n => n.id) hm)
      have hpa : ((a.id == i) && q a) = false := by
        simp [hane]
      rw [hpa]
      simp [ih ht hm]

/-- `countP` only depends on the predicate's values on the list. -/
theorem countP_congr_local {α : Type} (p q : α → Bool) (l : List α)
    (h : ∀ a ∈ l, p a = q a) : l.countP p = l.countP q := by
  induction l with
  | nil => simp
  | cons a t ih =>
    rw [List.countP_cons, List.countP_cons, h a (List.mem_cons_self _ _),
      ih (fun x hx => h x (List.mem_cons_of_mem _ hx))]

/-- The bulk update of `mark_read` matches exactly one row per requested id
when every requested id names an unread notification of the caller. -/
theorem markread_count (l : List Notification) (uid : Nat)
    (hnodup : (l.map (fun n => n.id)).Nodup) :
    ∀ ids : List Nat, ids.Nodup →
      (∀ i ∈ ids, ∃ n ∈ l, n.id = i ∧ n.userId = uid ∧ n.is_read = false) →
      l.countP (fun n => memNat ids n.id && (n.userId == uid && !n.is_read)) =
        ids.length := by
  intro ids
  induction ids with
  | nil =>
    intro _ _
    simp [memNat]
  | cons i tl ih =>
    intro hnd hall
    rw [List.nodup_cons] at hnd
    obtain ⟨hni, hndtl⟩ := hnd
    have hpt : ∀ n ∈ l, (memNat (i :: tl) n.id && (n.userId == uid && !n.is_read)) =
        (((n.id == i) && (n.userId == uid && !n.is_read)) ||
         (memNat tl n.id && (n.userId == uid && !n.is_read))) := by
      intro n _
      have hm : memNat (i :: tl) n.id = ((n.id == i) || memNat tl n.id) := by
        by_cases h : n.id = i
        · simp [memNat, h]
        · have h2 : (i == n.id) = false := by simp [Ne.symm h]
          have h3 : (n.id == i) = false := by simp [h]
          simp [memNat, List.any_cons, h2, h3]
      rw [hm]
      rcases (n.id == i) <;> rcases memNat tl n.id <;>
        rcases (n.userId == uid && !n.is_read) <;> rfl
    rw [countP_congr_local _ _ _ hpt]
    have hdisj : ∀ n ∈ l,
        ¬(((n.id == i) && (n.userId == uid && !n.is_read)) = true ∧
          (memNat tl n.id && (n.userId == uid && !n.is_read)) = true) := by
      intro n _ ⟨h1, h2⟩
      simp only [Bool.and_eq_true, beq_iff_eq] at h1 h2
      exact hni (h1.1 ▸ (memNat_iff tl n.id).mp h2.1)
    rw [countP_or_disjoint _ _ _ hdisj]
    obtain ⟨n0, hn0mem, hn0id, hn0uid, hn0read⟩ := hall i (List.mem_cons_self _ _)
    rw [countP_id_unique l _ hnodup i n0 hn0mem hn0id
      (by simp [hn0uid, hn0read])]
    rw [ih hndtl (fun j hj => hall j (List.mem_cons_of_mem _ hj))]
    simp [Nat.add_comm]

/-- Claim C8: a `mark_read` request listing `n` distinct unread notifications
of the caller answers with `count = n`, sets `is_read=True` and `read_at` on
exactly the listed rows, and leaves every other row untouched. -/
theorem mark_read_spec (st : NotifState) (ids : List Nat) (now : Nat)
    (hnd : ids.Nodup)
    (hnodup : (st.notifications.map (fun n => n.id)).Nodup)
    (hall : ∀ i ∈ ids, ∃ n ∈ st.notifications,
      n.id = i ∧ n.userId = st.userId ∧ n.is_read = false)
    (hne : ids ≠ []) :
    mark_read st ids now =
      .ok ({ st with notifications := markReadApply st ids now }, ids.length) ∧
    (∀ n ∈ markReadApply st ids now, n.id ∈ ids →
      n.is_read = true ∧ n.read_at = some now) ∧
    (∀ n ∈ st.notifications, n.id ∉ ids → n ∈ markReadApply st ids now) := by
  have hval : mark_read_validate st ids = true := by
    rw [mark_read_validate]
    simp only [Bool.and_eq_true]
    constructor
    · simp [List.isEmpty_iff, hne]
    · rw [List.all_eq_true]
      intro i hi
      obtain ⟨n, hnmem, hnid, hnuid, _⟩ := hall i hi
      rw [List.any_eq_true]
      exact ⟨n, hnmem, by simp [hnid, hnuid]⟩
  have hcount : (st.notifications.filter
      (fun n => markReadHits st ids n)).length = ids.length := by
    rw [← List.countP_eq_length_filter]
    rw [countP_congr_local (fun n => markReadHits st ids n)
        (fun n => memNat ids n.id && (n.userId == st.userId && !n.is_read))
        st.notifications (by intro n _; simp only [markReadHits]; rw [Bool.and_assoc])]
    exact markread_count st.notifications st.userId hnodup ids hnd hall
  refine ⟨?_, ?_, ?_⟩
  · rw [mark_read, if_pos hval, hcount]
  · intro n hn hnin
    rw [markReadApply] at hn
    obtain ⟨m, hm, hmap⟩ := List.mem_map.mp hn
    by_cases hhit : markReadHits st ids m = true
    · rw [if_pos hhit] at hmap
      rw [← hmap]
      exact ⟨rfl, rfl⟩
    · rw [if_neg hhit] at hmap
      subst hmap
      obtain ⟨n0, h0mem, h0id, h0uid, h0read⟩ := hall m.id hnin
      have h0m : n0 = m := List.inj_on_of_nodup_map hnodup h0mem hm h0id
      have : markReadHits st ids m = true := by
        simp only [markReadHits]
        simp [(memNat_iff ids m.id).mpr hnin, h0m ▸ h0uid, h0m ▸ h0read]
      exact absurd this hhit
  · intro n hn hnotin
    have hneq : markReadHits st ids n = false := by
      simp only [markReadHits]
      have hmn : memNat ids n.id = false := by
        rcases h : memNat ids n.id
        · rfl
        · exact absurd ((memNat_iff _ _).mp h) hnotin
      simp [hmn]
    rw [markReadApply]
    apply List.mem_map.mpr
    exact ⟨n, hn, by rw [if_neg (by simp [hneq])]⟩
/-- Witness for `mark_read_spec`: marking three unread notifications reports
count 3 and leaves the fourth untouched. -/
theorem mark_read_spec_witness :
    mark_read ⟨1, [unreadNotif 1, unreadNotif 2, unreadNotif 3, unreadNotif 4]⟩
        [1, 2, 3] 9 =
      .ok (⟨1, [{ unreadNotif 1 with is_read := true, read_at := some 9 },
                { unreadNotif 2 with is_read := true, read_at := some 9 },
                { unreadNotif 3 with is_read := true, read_at := some 9 },
                unreadNotif 4]⟩, 3) :=
  (mark_read_spec ⟨1, [unreadNotif 1, unreadNotif 2, unreadNotif 3, unreadNotif 4]⟩
    [1, 2, 3] 9 (by decide) (by decide) (by decide) (by decide)).1

/-- Claim C10: the schema makes `device_id` globally unique across all
`Device` rows, not merely unique per user: an insert preserves pairwise
distinctness of `device_id`, and registering a new account whose device
identifier is already recorded - for any user, another user included - makes
`Device.objects.create` raise `IntegrityError`, which the `register` view
converts to a 500 failure with no row persisted. -/
theorem device_id_globally_unique (devices : List Device) (d : Device)
    (hinv : List.Pairwise (fun a b => a.device_id ≠ b.device_id) devices) :
    (∀ devices2, insertDevice devices d = .ok devices2 →
      List.Pairwise (fun a b => a.device_id ≠ b.device_id) devices2) ∧
    (∀ e ∈ devices, e.device_id = d.device_id →
      register_device devices d = (500, devices)) := by
  constructor
  · intro devices2 hok
    rw [insertDevice] at hok
    by_cases hany : devices.any (fun e => e.device_id == d.device_id) = true
    · rw [if_pos hany] at hok
      exact Except.noConfusion hok
    · rw [if_neg hany] at hok
      have hok2 : devices ++ [d] = devices2 := by
        injection hok
      rw [← hok2]
      rw [List.pairwise_append]
      refine ⟨hinv, List.pairwise_singleton _ _, ?_⟩
      intro a ha b hb
      rw [List.mem_singleton.mp hb]
      intro heq
      apply hany
      rw [List.any_eq_true]
      exact ⟨a, ha, by simp [heq]⟩
  · intro e he heq
    have hany : devices.any (fun e => e.device_id == d.device_id) = true := by
      rw [List.any_eq_true]
      exact ⟨e, he, by simp [heq]⟩
    rw [register_device, insertDevice, if_pos hany]

/-- Witness for `device_id_globally_unique`: a second user registering with
an already-recorded device identifier fails with 500 and no new row. -/
theorem device_id_globally_unique_witness :
    register_device [⟨1, 1, "dev-abc", true⟩] ⟨2, 2, "dev-abc", true⟩ =
      (500, [⟨1, 1, "dev-abc", true⟩]) :=
  (device_id_globally_unique [⟨1, 1, "dev-abc", true⟩] ⟨2, 2, "dev-abc", true⟩
    (by simp)).2 ⟨1, 1, "dev-abc", true⟩ (by simp) rfl

end Privylock
